import Mathlib

/-!
Verification model of `graceful` (src/graceful.go): a graceful-restart /
graceful-shutdown wrapper around an HTTP server, built on an actor-group
supervisor (oklog/run) and an upgrade coordinator (tableflip).

Go `error` values are modelled as `Option String` (`none` is Go `nil`).
Durations are modelled as abstract integer time units.
Concurrency is modelled by making the nondeterministic choices explicit:
which actor's run function returns first (the trigger index) and in which
order the remaining run functions return afterwards.
-/

namespace Graceful

/-- A Go error value: `none` is `nil`, `some m` a non-nil error with message `m`. -/
abbrev Err := Option String

/-- Levels of the logging collaborator (codechimp-io/log): `fatal` terminates
the process after logging, the other levels return. -/
inductive LogLevel
  | info
  | error
  | fatal
deriving DecidableEq, Repr

/-- One emitted log message. -/
structure LogMsg where
  level : LogLevel
  text : String
deriving DecidableEq, Repr

/-! ## Actor group supervisor (oklog/run `run.Group`)

The oklog/run library is an external collaborator (not under src/), so its
`Run` is modelled from the spec. -/

/-- Events observable during a group run: an actor's run function returning
with an error, or an actor's interrupt function being invoked with an error. -/
inductive GEvent
  | runReturned (i : Nat) (e : Err)
  | interruptCalled (i : Nat) (e : Err)
deriving DecidableEq, Repr

/-- Result of a group run: the returned error and the trace of events. -/
structure GroupOutcome where
  ret : Err
  trace : List GEvent
deriving DecidableEq, Repr

/-- Modelled from the spec: the Actor Group Supervisor (`run.Group.Run` of
oklog/run, used at src/graceful.go lines 42 and 132 but whose source is not
under src/). Every registered actor's run function is executed concurrently;
the first to return, with error `e`, is the trigger (index `t`, its run result
`runErrs.get t`); upon the trigger every actor's interrupt is invoked with `e`;
then the group waits for the remaining run functions to return (in the
scheduling order `laterOrder`, whose entries and errors are discarded) before
`Run` returns the trigger's error. The model is a total function, so `Run`
returns exactly once per invocation. -/
def groupRun (runErrs : List Err) (t : Nat) (laterOrder : List Nat) : GroupOutcome :=
  match runErrs.get? t with
  | none => { ret := none, trace := [] }
  | some e =>
      { ret := e
        trace :=
          [GEvent.runReturned t e]
            ++ (List.range runErrs.length).map (fun i => GEvent.interruptCalled i e)
            ++ laterOrder.map (fun i => GEvent.runReturned i (runErrs.getD i none)) }

/-- Does this event record actor `i`'s interrupt function being invoked? -/
def isInterruptOf (i : Nat) : GEvent → Bool
  | GEvent.interruptCalled j _ => j == i
  | _ => false

/-- How many times actor `i`'s interrupt function is invoked in a trace. -/
def countInterrupts (tr : List GEvent) (i : Nat) : Nat :=
  tr.countP (isInterruptOf i)

/-! ## Deadline-bounded shutdown (server actor interrupt, src lines 57-77) -/

/-- What `server.Shutdown(ctx)` returns: how long it blocked, its error, and
whether connections were still open when it returned. -/
structure ShutdownReturn where
  waited : Nat
  err : Err
  openAfter : Bool
deriving DecidableEq, Repr

/-- Modelled from the spec: the external collaborator `server.Shutdown(ctx)`
(`Shutdown(deadline) -> error` of the consumed network-server interface).
It stops accepting new connections and blocks until all in-flight connections
have finished (after `drain` time units; `drain = none` means they never
finish), or until the context deadline `timeout` elapses, whichever is first;
a non-positive `timeout` installs no deadline (src lines 64-69 leave
`context.Background()`). On an elapsed deadline it returns the context error
with connections still open; a `none` result means the call never returns. -/
def shutdownModel (timeout : Int) (drain : Option Nat) : Option ShutdownReturn :=
  if 0 < timeout then
    match drain with
    | some d =>
        if (d : Int) ≤ timeout then some { waited := d, err := none, openAfter := false }
        else some { waited := timeout.toNat, err := some "context deadline exceeded", openAfter := true }
    | none => some { waited := timeout.toNat, err := some "context deadline exceeded", openAfter := true }
  else
    match drain with
    | some d => some { waited := d, err := none, openAfter := false }
    | none => none

/-- The default shutdown timeout, src line 16: `var ShutdownTimeout = 3 * time.Second`
(3 time units, here seconds). -/
def ShutdownTimeout : Int := 3

/-- Observable outcome of the server actor's interrupt function. -/
structure ServerInterruptResult where
  logs : List LogMsg
  /-- `log.Fatalf` was reached: the process terminated inside the interrupt. -/
  fatalExited : Bool
  /-- `server.Shutdown` was called. -/
  shutdownCalled : Bool
  /-- Time blocked before the interrupt finished; `none` means it blocks forever. -/
  waited : Option Nat
  /-- `server.Close()` force-closed connections that were still open. -/
  forcedCloseOpen : Bool
deriving DecidableEq, Repr

/-- The server actor's interrupt function, src/graceful.go lines 57-77: if the
trigger error `e` is non-nil it calls `log.Fatalf` (terminating the process)
and never reaches shutdown; otherwise it logs, builds a context with a
deadline only when `timeout` is positive, calls `server.Shutdown(ctx)`,
logs a non-nil shutdown error at error level, and finally calls
`server.Close()` (whose own error is discarded), which force-closes exactly
the connections still open. -/
def serverInterrupt (timeout : Int) (drain : Option Nat) (e : Err) : ServerInterruptResult :=
  match e with
  | some m =>
      { logs := [{ level := LogLevel.fatal, text := "Failed to start HTTP Server: " ++ m }]
        fatalExited := true
        shutdownCalled := false
        waited := some 0
        forcedCloseOpen := false }
  | none =>
      let infoLog : LogMsg := { level := LogLevel.info, text := "Shutting HTTP Server down" }
      match shutdownModel timeout drain with
      | none =>
          { logs := [infoLog]
            fatalExited := false
            shutdownCalled := true
            waited := none
            forcedCloseOpen := false }
      | some r =>
          { logs := [infoLog] ++ (match r.err with
              | some m => [{ level := LogLevel.error, text := "Error shutting down HTTP server: " ++ m }]
              | none => [])
            fatalExited := false
            shutdownCalled := true
            waited := some r.waited
            forcedCloseOpen := r.openAfter }

/-- The logs the server actor's interrupt emits as a function of everything
the shutdown path produces, including the error of the final `server.Close()`
call at src line 76. The code binds that error to `_` (`_ = server.Close()`),
so it is discarded: no log statement exists for it and the emitted logs do
not depend on `closeErr`. -/
def serverInterruptLogsWithClose (timeout : Int) (drain : Option Nat)
    (closeErr : Err) (e : Err) : List LogMsg :=
  (serverInterrupt timeout drain e).logs

/-! ## SIGHUP watcher (src lines 30-40) -/

/-- The SIGHUP watcher goroutine, src/graceful.go lines 30-40, applied to the
finite prefix of hang-up signals received so far: for each received signal it
logs, invokes one replacement attempt (`upg.Upgrade()`, whose result for the
k-th signal is `results.get k`), logs a non-nil failure at error level, and
loops to wait for the next signal. Returns the emitted logs and the number of
`Upgrade` invocations. -/
def sighupWatcher : List Err → List LogMsg × Nat
  | [] => ([], 0)
  | r :: rest =>
      let tail := sighupWatcher rest
      let here :=
        [{ level := LogLevel.info, text := "Received SIGHUP, restaring gracefully..." }]
          ++ (match r with
            | some m => [{ level := LogLevel.error, text := "Upgrade failed: " ++ m }]
            | none => [])
      (here ++ tail.1, tail.2 + 1)

/-! ## Upgrade coordinator (tableflip), modelled from the spec -/

/-- State of the Upgrade Coordinator (tableflip `Upgrader`, an external
collaborator whose source is not under src/). -/
structure Coordinator where
  stopped : Bool
  /-- The marker/PID file is currently held. -/
  markerFile : Bool
  /-- A spawned replacement process resource is currently held. -/
  spawnedReplacement : Bool
  /-- The `Exit()` notification has fired. -/
  exitFired : Bool
deriving DecidableEq, Repr

/-- Result of `Stop()`: the new coordinator state, the observable side effects
this particular call performed, and its error (always nil). -/
structure StopResult where
  coord : Coordinator
  effects : List String
  err : Err
deriving DecidableEq, Repr

/-- Modelled from the spec: `Stop()` on the Upgrade Coordinator releases all
resources held by the coordinator (the marker file, any replacement already
spawned) and fires `Exit` if it has not fired yet; it reports no error. The
effects list records only the releases this call actually performed, so a
call on an already-stopped coordinator performs none. -/
def stop (c : Coordinator) : StopResult :=
  { coord := { stopped := true, markerFile := false, spawnedReplacement := false, exitFired := true }
    effects :=
      (if c.markerFile then ["remove marker file"] else [])
        ++ (if c.spawnedReplacement then ["release spawned replacement"] else [])
        ++ (if c.exitFired then [] else ["fire exit notification"])
    err := none }

/-! ## Readiness/exit actor (src lines 115-129) -/

/-- Observable outcome of the readiness/exit actor's run function. -/
structure ReadinessRunResult where
  readyCalled : Bool
  /-- The error `upg.Ready()` returned; the code binds it to `_` and drops it. -/
  readyResultDiscarded : Err
  /-- The run function blocked on `<-upg.Exit()` before returning. -/
  waitedForExit : Bool
  ret : Err
deriving DecidableEq, Repr

/-- The readiness/exit actor's run function, src/graceful.go lines 116-125:
`_ = upg.Ready()` (result discarded), then block on `<-upg.Exit()`, then
`return nil` — whatever `Ready()` returned. -/
def readinessRun (readyErr : Err) : ReadinessRunResult :=
  { readyCalled := true
    readyResultDiscarded := readyErr
    waitedForExit := true
    ret := none }

/-! ## Wiring of graceful.Run (src lines 19-136) -/

/-- The concurrent tasks graceful.Run starts: the three actors added to the
run group and the hang-up watcher. -/
inductive ActorTag
  | server
  | termSignal
  | readiness
  | hangupWatcher
deriving DecidableEq, Repr

/-- How graceful.Run wires its concurrent tasks. -/
structure RunWiring where
  /-- Tasks registered with `group.Add`, in registration order. -/
  groupActors : List ActorTag
  /-- Tasks started with a bare `go` statement, outside the group. -/
  bareGoroutines : List ActorTag
deriving DecidableEq, Repr

/-- The wiring of graceful.Run: three `group.Add` calls register the server
actor (line 51), the SIGINT/SIGTERM signal actor (line 89) and the
readiness/exit actor (line 115), in that order; the SIGHUP watcher is started
with a bare `go` statement (line 30) and is never added to the group. -/
def runWiring : RunWiring :=
  { groupActors := [ActorTag.server, ActorTag.termSignal, ActorTag.readiness]
    bareGoroutines := [ActorTag.hangupWatcher] }

/-- The run results of the three registered actors when each triggers:
the server actor's run returns `server.Serve`'s error (index 0), the
SIGINT/SIGTERM actor's run returns nil (line 105, index 1), and the
readiness/exit actor's run returns what `readinessRun` returns (line 124,
index 2). -/
def gracefulRunErrs (serveErr readyErr : Err) : List Err :=
  [serveErr, none, (readinessRun readyErr).ret]

/-- End-to-end outcome of `group.Run` in graceful.Run: the returned error and
the server actor's interrupt logs (the interrupt phase runs every interrupt
with the trigger's error). -/
structure GracefulOutcome where
  ret : Err
  serverInterruptLogs : List LogMsg
deriving DecidableEq, Repr

/-- `group.Run()` at src line 132, over the three registered actors, with
trigger index `t`, remaining-return order `laterOrder`, and the shutdown
parameters of the server actor's interrupt. -/
def gracefulGroupOutcome (serveErr readyErr : Err) (timeout : Int) (drain : Option Nat)
    (t : Nat) (laterOrder : List Nat) : GracefulOutcome :=
  let g := groupRun (gracefulRunErrs serveErr readyErr) t laterOrder
  { ret := g.ret
    serverInterruptLogs := (serverInterrupt timeout drain g.ret).logs }

/-! ## Top-level control flow of graceful.Run (src lines 19-49) -/

/-- The successive steps of graceful.Run's body. -/
inductive Step
  | newUpgrader
  | deferStop
  | startSighupWatcher
  | listen
  | addServerActor
  | addSignalActor
  | addReadyActor
  | groupRunStep
deriving DecidableEq, Repr

/-- What the start of graceful.Run did: which steps executed, the logs, and
whether the process terminated by `log.Fatalf` along the way. -/
structure RunStartResult where
  steps : List Step
  logs : List LogMsg
  fatal : Bool
deriving DecidableEq, Repr

/-- The control flow of graceful.Run up to `group.Run`, src/graceful.go lines
19-49: `tableflip.New` runs first; on a non-nil error the code logs it with
`log.Errorf` — which returns — and execution continues into `defer upg.Stop()`,
the SIGHUP watcher goroutine and `upg.Fds.Listen`; only a non-nil listener
error reaches `log.Fatalf`, which terminates the process before the three
`group.Add` calls and `group.Run`. -/
def runStart (newErr listenErr : Err) : RunStartResult :=
  let newLogs : List LogMsg :=
    match newErr with
    | some m => [{ level := LogLevel.error, text := "Creating graceful upgrader failed: " ++ m }]
    | none => []
  match listenErr with
  | some m =>
      { steps := [Step.newUpgrader, Step.deferStop, Step.startSighupWatcher, Step.listen]
        logs := newLogs ++ [{ level := LogLevel.fatal, text := "Error creating new listener: " ++ m }]
        fatal := true }
  | none =>
      { steps := [Step.newUpgrader, Step.deferStop, Step.startSighupWatcher, Step.listen,
          Step.addServerActor, Step.addSignalActor, Step.addReadyActor, Step.groupRunStep]
        logs := newLogs
        fatal := false }


/-! ## Helper lemmas -/

lemma countP_range_beq (n i : Nat) :
    (List.range n).countP (fun j => j == i) = if i < n then 1 else 0 := by
  induction n with
  | zero => simp
  | succ n ih =>
      rw [List.range_succ, List.countP_append, ih]
      by_cases h : i < n
      · have hne : ¬ (n == i) = true := by simp; omega
        simp [List.countP_cons, hne, h, Nat.lt_succ_of_lt h]
      · by_cases he : i = n
        · subst he
          simp [List.countP_cons, h]
        · have : ¬ i < n + 1 := by omega
          have hne : ¬ (n == i) = true := by simp; omega
          simp [List.countP_cons, hne, h, this]

lemma countInterrupts_groupRun (runErrs : List Err) (t : Nat) (laterOrder : List Nat)
    (ht : t < runErrs.length) (i : Nat) :
    countInterrupts (groupRun runErrs t laterOrder).trace i =
      if i < runErrs.length then 1 else 0 := by
  obtain ⟨e, he⟩ : ∃ e, runErrs.get? t = some e := by
    rw [List.get?_eq_get ht]; exact ⟨_, rfl⟩
  simp only [groupRun, he, countInterrupts, List.countP_append, List.countP_map]
  have h1 : List.countP (isInterruptOf i) [GEvent.runReturned t e] = 0 := by
    simp [isInterruptOf]
  have h2 : List.countP (isInterruptOf i ∘ fun j => GEvent.interruptCalled j e)
      (List.range runErrs.length) = if i < runErrs.length then 1 else 0 := by
    have : (isInterruptOf i ∘ fun j => GEvent.interruptCalled j e) = fun j => j == i := by
      funext j; simp [isInterruptOf]
    rw [this, countP_range_beq]
  have h3 : List.countP (isInterruptOf i ∘ fun j => GEvent.runReturned j (runErrs.getD j none))
      laterOrder = 0 := by
    simp [isInterruptOf, Function.comp]
  rw [h1, h2, h3]
  omega

lemma groupRun_ret (runErrs : List Err) (t : Nat) (laterOrder : List Nat)
    (ht : t < runErrs.length) :
    (groupRun runErrs t laterOrder).ret = runErrs.get ⟨t, ht⟩ := by
  simp only [groupRun, List.get?_eq_get ht]

/-! ## Claim theorems -/

/-- C1: for every actor group with N ≥ 1 registered actors and any choice of
trigger, the group's `Run` (a total function of the model, hence returning
exactly once) produces a trace in which every registered actor's interrupt has
been invoked exactly once, regardless of which actor triggered termination and
of the order in which the remaining run functions return. -/
theorem c1_every_interrupt_exactly_once (runErrs : List Err) (t : Nat)
    (laterOrder : List Nat) (hn : 1 ≤ runErrs.length) (ht : t < runErrs.length) :
    ∀ i < runErrs.length, countInterrupts (groupRun runErrs t laterOrder).trace i = 1 := by
  intro i hi
  rw [countInterrupts_groupRun runErrs t laterOrder ht i]
  simp [hi]

/-- Witness for C1 at the group graceful.Run registers (three actors:
server, termination-signal, readiness/exit), trigger the signal actor. -/
theorem c1_every_interrupt_exactly_once_witness :
    1 ≤ (gracefulRunErrs none none).length ∧ 1 < (gracefulRunErrs none none).length ∧
    countInterrupts (groupRun (gracefulRunErrs none none) 1 [0, 2]).trace 0 = 1 := by
  refine ⟨by decide, by decide, ?_⟩
  exact c1_every_interrupt_exactly_once (gracefulRunErrs none none) 1 [0, 2]
    (by decide) (by decide) 0 (by decide)

/-- C2: if actor `t`'s run function is the first to return, with error `e`
(possibly nil), the group's `Run` returns exactly `e`, for every number of
other actors and every order and every errors of their later returns. -/
theorem c2_run_returns_trigger_error (runErrs : List Err) (t : Nat)
    (laterOrder : List Nat) (ht : t < runErrs.length) :
    (groupRun runErrs t laterOrder).ret = runErrs.get ⟨t, ht⟩ :=
  groupRun_ret runErrs t laterOrder ht

/-- Witness for C2: a two-actor group whose first actor triggers with a
non-nil error while the second later returns nil. -/
theorem c2_run_returns_trigger_error_witness :
    (groupRun [some "boom", none] 0 [1]).ret = some "boom" := by
  have h := c2_run_returns_trigger_error [some "boom", none] 0 [1] (by decide)
  simpa using h

/-- C3 (evaluation at the failing input): when `tableflip.New` returns a
non-nil error, graceful.Run logs it at error level — `log.Errorf`, which
returns — and execution continues: the deferred Stop, the SIGHUP watcher
goroutine, listener creation and every later step still execute, and no
fatal termination happens at that point, contrary to the claimed immediate
termination before any subsequent step. -/
theorem c3_run_continues_after_upgrader_failure :
    (runStart (some "boom") none).fatal = false ∧
    Step.startSighupWatcher ∈ (runStart (some "boom") none).steps ∧
    Step.listen ∈ (runStart (some "boom") none).steps ∧
    Step.groupRunStep ∈ (runStart (some "boom") none).steps ∧
    (runStart (some "boom") none).logs =
      [{ level := LogLevel.error, text := "Creating graceful upgrader failed: boom" }] := by
  refine ⟨rfl, ?_, ?_, ?_, rfl⟩ <;> decide

/-- C4 counterexample: at the concrete non-nil trigger error "boom" (default
timeout, a draining connection present), the server actor's interrupt does not
begin graceful shutdown: it never calls `server.Shutdown`, reaching
`log.Fatalf` instead and terminating the process. -/
theorem c4_counterexample_nonnil_trigger_is_fatal :
    (serverInterrupt ShutdownTimeout (some 1) (some "boom")).shutdownCalled = false ∧
    (serverInterrupt ShutdownTimeout (some 1) (some "boom")).fatalExited = true :=
  ⟨rfl, rfl⟩

/-- C4 (amended): for every NIL trigger error and positive timeout, the server
actor's interrupt begins graceful shutdown: `server.Shutdown` is called
(stopping new accepts and waiting for in-flight connections), the wait is
bounded by the timeout, and still-open connections are force-closed exactly
when the deadline elapses before the drain completes; for a non-nil trigger
error the interrupt instead terminates the process fatally without shutting
down. -/
theorem c4_amended_graceful_shutdown_on_nil_trigger (timeout : Int) (drain : Option Nat)
    (hpos : 0 < timeout) :
    (serverInterrupt timeout drain none).shutdownCalled = true ∧
    (serverInterrupt timeout drain none).fatalExited = false ∧
    (∀ w, (serverInterrupt timeout drain none).waited = some w → (w : Int) ≤ timeout) ∧
    ((serverInterrupt timeout drain none).forcedCloseOpen = true ↔
      ∀ d, drain = some d → timeout < (d : Int)) := by
  cases drain with
  | none =>
      refine ⟨by simp [serverInterrupt, shutdownModel, hpos], by simp [serverInterrupt, shutdownModel, hpos], ?_, by simp [serverInterrupt, shutdownModel, hpos]⟩
      intro w hw
      simp [serverInterrupt, shutdownModel, hpos] at hw
      omega
  | some d =>
      by_cases hd : (d : Int) ≤ timeout
      · refine ⟨by simp [serverInterrupt, shutdownModel, hpos, hd], by simp [serverInterrupt, shutdownModel, hpos, hd], ?_, ?_⟩
        · intro w hw
          simp [serverInterrupt, shutdownModel, hpos, hd] at hw
          omega
        · simp [serverInterrupt, shutdownModel, hpos, hd]
      · refine ⟨by simp [serverInterrupt, shutdownModel, hpos, hd], by simp [serverInterrupt, shutdownModel, hpos, hd], ?_, ?_⟩
        · intro w hw
          simp [serverInterrupt, shutdownModel, hpos, hd] at hw
          omega
        · simp [serverInterrupt, shutdownModel, hpos, hd]
          omega

/-- Witness for the amended C4: timeout 3, drain 5 — shutdown called, bounded
wait, force-close of the still-open connections. -/
theorem c4_amended_witness :
    (serverInterrupt 3 (some 5) none).shutdownCalled = true ∧
    (serverInterrupt 3 (some 5) none).forcedCloseOpen = true := by
  have h := c4_amended_graceful_shutdown_on_nil_trigger 3 (some 5) (by decide)
  refine ⟨h.1, h.2.2.2.mpr ?_⟩
  intro d hd
  injection hd with hd
  omega

/-- C5: with a non-positive ShutdownTimeout the server actor's interrupt (on
its shutdown path, reached with the nil trigger error) imposes no deadline:
the drain is waited in full however long it takes — forever if the in-flight
connections never finish — and no open connection is ever force-closed. -/
theorem c5_nonpositive_timeout_no_deadline (timeout : Int) (drain : Option Nat)
    (hnp : timeout ≤ 0) :
    (serverInterrupt timeout drain none).shutdownCalled = true ∧
    (serverInterrupt timeout drain none).fatalExited = false ∧
    (serverInterrupt timeout drain none).forcedCloseOpen = false ∧
    (∀ d, drain = some d → (serverInterrupt timeout drain none).waited = some d) ∧
    (drain = none → (serverInterrupt timeout drain none).waited = none) := by
  have hn : ¬ 0 < timeout := by omega
  cases drain <;> simp [serverInterrupt, shutdownModel, hn]

/-- Witness for C5 at timeout 0, drain 7: the full drain is waited, nothing is
force-closed. -/
theorem c5_nonpositive_timeout_witness :
    (serverInterrupt 0 (some 7) none).waited = some 7 ∧
    (serverInterrupt 0 (some 7) none).forcedCloseOpen = false := by
  have h := c5_nonpositive_timeout_no_deadline 0 (some 7) (by decide)
  exact ⟨h.2.2.2.1 7 rfl, h.2.2.1⟩

/-- C6 counterexample: at a concrete input where the forced close produces an
error — timeout 3, drain 5 (so the deadline elapses, `server.Close()` at src
line 76 force-closes the still-open connections) and `Close` returns the
error "close failed" — the interrupt's entire log output is the info message
and the drain's deadline error only: the forced-close error appears in no log,
refuting the claim that any error produced while shutting down (drain or
forced close) is logged. -/
theorem c6_counterexample_close_error_unlogged :
    serverInterruptLogsWithClose 3 (some 5) (some "close failed") none =
      [{ level := LogLevel.info, text := "Shutting HTTP Server down" },
       { level := LogLevel.error, text := "Error shutting down HTTP server: context deadline exceeded" }] :=
  rfl

/-- C6 (amended): an error from the graceful drain (`server.Shutdown`, src
line 71-74) is logged at error level, never fatally; an error from the forced
close (`server.Close`, src line 76) is discarded without being logged (the
emitted logs are the same for every close error); and neither error is
escalated: the group's returned error is exactly the trigger's run error for
every shutdown timeout, drain behavior and close error, so shutdown failures
can never change it. -/
theorem c6_amended_drain_logged_close_discarded (timeout : Int) (drain : Option Nat) :
    (∀ r m, shutdownModel timeout drain = some r → r.err = some m →
      ({ level := LogLevel.error, text := "Error shutting down HTTP server: " ++ m } : LogMsg)
          ∈ (serverInterrupt timeout drain none).logs ∧
        (serverInterrupt timeout drain none).fatalExited = false) ∧
    (∀ closeErr : Err,
      serverInterruptLogsWithClose timeout drain closeErr none =
        (serverInterrupt timeout drain none).logs) ∧
    (∀ serveErr readyErr : Err, ∀ t : Nat, ∀ laterOrder : List Nat,
      ∀ ht : t < (gracefulRunErrs serveErr readyErr).length,
      (gracefulGroupOutcome serveErr readyErr timeout drain t laterOrder).ret =
        (gracefulRunErrs serveErr readyErr).get ⟨t, ht⟩) := by
  refine ⟨?_, fun closeErr => rfl, ?_⟩
  · intro r m hr hm
    constructor
    · simp [serverInterrupt, hr, hm]
    · simp [serverInterrupt, hr]
  · intro serveErr readyErr t laterOrder ht
    simpa [gracefulGroupOutcome] using
      groupRun_ret (gracefulRunErrs serveErr readyErr) t laterOrder ht

/-- Witness for the amended C6: with timeout 3 and a drain of 5 the drain's
deadline error is logged at error level, the logs are unchanged by a failing
close, and with the server actor triggering on error "boom" the group still
returns exactly "boom". -/
theorem c6_amended_witness :
    ({ level := LogLevel.error, text := "Error shutting down HTTP server: context deadline exceeded" } : LogMsg)
        ∈ (serverInterrupt 3 (some 5) none).logs ∧
    serverInterruptLogsWithClose 3 (some 5) (some "other close error") none =
      (serverInterrupt 3 (some 5) none).logs ∧
    (gracefulGroupOutcome (some "boom") none 3 (some 5) 0 [1, 2]).ret = some "boom" := by
  have h := c6_amended_drain_logged_close_discarded 3 (some 5)
  refine ⟨(h.1 { waited := 3, err := some "context deadline exceeded", openAfter := true }
    "context deadline exceeded" rfl rfl).1, h.2.1 (some "other close error"), ?_⟩
  have h2 := h.2.2 (some "boom") none 0 [1, 2] (by decide)
  simpa using h2

/-- C7: for every finite sequence of received hang-up signals, the watcher
performs exactly one replacement attempt per signal, every failed attempt's
error is logged at error level, no log is fatal (a failure does not kill the
watcher), and processing continues through the whole sequence even after
failures. -/
theorem c7_sighup_one_upgrade_per_signal (results : List Err) :
    (sighupWatcher results).2 = results.length ∧
    (∀ l ∈ (sighupWatcher results).1, l.level ≠ LogLevel.fatal) ∧
    (∀ m, some m ∈ results →
      ({ level := LogLevel.error, text := "Upgrade failed: " ++ m } : LogMsg)
        ∈ (sighupWatcher results).1) := by
  induction results with
  | nil => simp [sighupWatcher]
  | cons r rest ih =>
      obtain ⟨ih1, ih2, ih3⟩ := ih
      refine ⟨by simp [sighupWatcher, ih1], ?_, ?_⟩
      · intro l hl
        cases r with
        | none =>
            simp [sighupWatcher] at hl
            rcases hl with hl | hl
            · subst hl; decide
            · exact ih2 l hl
        | some m0 =>
            simp [sighupWatcher] at hl
            rcases hl with hl | hl | hl
            · subst hl; simp
            · subst hl; simp
            · exact ih2 l hl
      · intro m hm
        rcases List.mem_cons.mp hm with hm | hm
        · cases r with
          | none => simp at hm
          | some m0 =>
              have hm0 : m0 = m := by injection hm.symm
              subst hm0
              simp [sighupWatcher]
        · have hmem := ih3 m hm
          cases r <;> simp [sighupWatcher, hmem]

/-- Witness for C7: two signals, the first replacement attempt failing —
two upgrade attempts happen and the failure is logged at error level. -/
theorem c7_sighup_witness :
    (sighupWatcher [some "nope", none]).2 = 2 ∧
    ({ level := LogLevel.error, text := "Upgrade failed: nope" } : LogMsg)
        ∈ (sighupWatcher [some "nope", none]).1 := by
  have h := c7_sighup_one_upgrade_per_signal [some "nope", none]
  exact ⟨h.1, h.2.2 "nope" (by simp)⟩

/-- C8 counterexample: the hang-up watcher is not registered with the run
group at all — it is started as a bare goroutine outside the group, and the
three registered actors are the server actor, the SIGINT/SIGTERM
termination-signal actor and the readiness/exit actor. -/
theorem c8_counterexample_hangup_watcher_not_registered :
    ActorTag.hangupWatcher ∉ runWiring.groupActors ∧
    runWiring.bareGoroutines = [ActorTag.hangupWatcher] := by
  decide

/-- C8 (amended): it is the termination-signal (SIGINT/SIGTERM) watcher — not
the hang-up watcher — that is registered with the Actor Group Supervisor
(position 1, after the server actor); every registered actor, the
termination-signal watcher included, is interrupted exactly once before `Run`
returns, while the hang-up watcher runs as an unsupervised goroutine outside
the group and receives no interrupt from it. -/
theorem c8_amended_termination_watcher_registered (serveErr readyErr : Err) (t : Nat)
    (laterOrder : List Nat) (ht : t < (gracefulRunErrs serveErr readyErr).length) :
    runWiring.groupActors = [ActorTag.server, ActorTag.termSignal, ActorTag.readiness] ∧
    ActorTag.hangupWatcher ∉ runWiring.groupActors ∧
    countInterrupts (groupRun (gracefulRunErrs serveErr readyErr) t laterOrder).trace 1 = 1 ∧
    countInterrupts (groupRun (gracefulRunErrs serveErr readyErr) t laterOrder).trace 3 = 0 := by
  refine ⟨rfl, by decide, ?_, ?_⟩
  · rw [countInterrupts_groupRun _ _ _ ht]
    simp [gracefulRunErrs]
  · rw [countInterrupts_groupRun _ _ _ ht]
    simp [gracefulRunErrs]

/-- Witness for the amended C8 with the server actor triggering. -/
theorem c8_amended_witness :
    countInterrupts (groupRun (gracefulRunErrs none none) 0 [1, 2]).trace 1 = 1 ∧
    countInterrupts (groupRun (gracefulRunErrs none none) 0 [1, 2]).trace 3 = 0 := by
  have h := c8_amended_termination_watcher_registered none none 0 [1, 2] (by decide)
  exact ⟨h.2.2.1, h.2.2.2⟩

/-- C9: `Stop` on the upgrade coordinator is idempotent: a second `Stop` — as
happens when the readiness/exit actor's interrupt calls `Stop` and the
deferred `Stop` runs again at the end of Run, after `Exit` has already fired —
leaves the coordinator state unchanged, reports no error, and performs no
observable side effect the second time. -/
theorem c9_stop_idempotent (c : Coordinator) :
    (stop (stop c).coord).coord = (stop c).coord ∧
    (stop (stop c).coord).effects = [] ∧
    (stop (stop c).coord).err = none := by
  simp [stop]

/-- C10: the readiness/exit actor discards the error `Ready()` returns: its
run function returns nil whatever that error was, so when this actor is the
trigger (index 2 of the group) the group's returned error is nil — a failed
readiness handshake can never become the group's returned error. -/
theorem c10_ready_error_discarded (readyErr : Err) :
    (readinessRun readyErr).readyResultDiscarded = readyErr ∧
    (readinessRun readyErr).ret = none ∧
    (∀ serveErr : Err, ∀ laterOrder : List Nat,
      (groupRun (gracefulRunErrs serveErr readyErr) 2 laterOrder).ret = none) := by
  refine ⟨rfl, rfl, ?_⟩
  intro serveErr laterOrder
  simp [groupRun, gracefulRunErrs, readinessRun]

end Graceful
